import Mathlib

/-
Verification of the Hyperscan-backed minigrep utility (src/main.rs).

The program is modelled as a pure function over an abstract external engine.
Strings crossing the FFI boundary (the pattern and the input lines) are
modelled as their byte sequences (`List Nat`); diagnostic messages stay as
Lean strings.  Every call the program makes into the engine is recorded in
an event trace so that resource-release claims can be stated and settled.
-/

namespace Minigrep

/-- The engine's distinguished success status (`HS_SUCCESS`, value 0). -/
def HS_SUCCESS : Int := 0

/-- Modulus of the `as u32` cast applied to the line length in `scan_line`. -/
def U32_MOD : Nat := 2 ^ 32

/-- One call the Rust code makes into the Hyperscan C library. -/
inductive Event where
  | hsCompile
  | hsFreeCompileError
  | hsAllocScratch
  | hsScan
  | hsFreeScratch
  | hsFreeDatabase
deriving DecidableEq, Repr

/-- Metadata Hyperscan passes to the match callback for one match event. -/
structure MatchEvent where
  mid : Nat
  mstart : Nat
  mend : Nat
  mflags : Nat
deriving DecidableEq, Repr

/-- What `hs_compile` does with a given (NUL-free) pattern: success, or a
failure carrying the compile-error structure.  The outer `Option` models a
null `hs_compile_error_t` pointer, the inner one a null `message` field. -/
inductive CompileOutcome where
  | success
  | failure (err : Option (Option String))
deriving DecidableEq

/-- Behaviour of one `hs_scan` call: the status the engine returns and the
match events it would deliver to the callback (in delivery order). -/
structure ScanBehavior where
  status : Int
  events : List MatchEvent
deriving DecidableEq

/-- The abstract external engine: compile outcome per pattern, scratch
allocation status, and scan behaviour as a function of the byte buffer the
engine can actually see. -/
structure EngineBeh where
  compileOutcome : List Nat → CompileOutcome
  allocStatus : Int
  scanBeh : List Nat → ScanBehavior

/-- One item yielded by `stdin.lock().lines()`: a decoded line, or an error
(`invalid` covers both an I/O failure and a line that is not valid UTF-8;
either way `lines()` yields an `Err`). -/
inductive LineRead where
  | ok (bytes : List Nat)
  | invalid
deriving DecidableEq, Repr

/-- The Hyperscan match callback `on_match` (src/main.rs): it writes `true`
through the context pointer and returns 0.  Result: (new context value,
return code). -/
def on_match (_id _start _end _flags : Nat) (_ctx : Bool) : Bool × Int :=
  (true, 0)

/-- The engine's delivery loop for one scan call: match events are handed to
`on_match` one at a time; a non-zero callback return stops delivery. -/
def deliver : List MatchEvent → Bool → Bool
  | [], ctx => ctx
  | e :: rest, ctx =>
    let r := on_match e.mid e.mstart e.mend e.mflags ctx
    if r.2 = 0 then deliver rest r.1 else r.1

/-- `compile_database` (src/main.rs): rejects a pattern containing an
interior NUL before touching the engine; otherwise calls `hs_compile` and,
on failure, extracts the diagnostic message (with a fallback when the error
structure or its message is null), frees the error structure, and
propagates the error.  Returns the result together with the engine-call
trace. -/
def compile_database (engc : List Nat → CompileOutcome) (pattern : List Nat) :
    Except String Unit × List Event :=
  if pattern.contains 0 then
    (Except.error "pattern contains interior NUL", [])
  else
    match engc pattern with
    | CompileOutcome.success => (Except.ok (), [Event.hsCompile])
    | CompileOutcome.failure err =>
      let msg :=
        match err with
        | some (some m) => m
        | _ => "Unknown compile error"
      (Except.error ("Hyperscan compile error: " ++ msg),
        [Event.hsCompile, Event.hsFreeCompileError])

/-- `alloc_scratch` (src/main.rs): calls `hs_alloc_scratch` and turns a
non-success status into an error. -/
def alloc_scratch (allocStatus : Int) : Except String Unit × List Event :=
  if allocStatus ≠ HS_SUCCESS then
    (Except.error
        ("Failed: Unable to allocate Hyperscan scratch (rc = " ++
          toString allocStatus ++ ")"),
      [Event.hsAllocScratch])
  else
    (Except.ok (), [Event.hsAllocScratch])

/-- The byte length `scan_line` passes to `hs_scan`: `line.len() as u32`. -/
def passedLen (line : List Nat) : Nat := line.length % U32_MOD

/-- The buffer `hs_scan` can read: `passedLen line` bytes starting at the
line's data pointer. -/
def visibleBuffer (line : List Nat) : List Nat := line.take (passedLen line)

/-- `scan_line` (src/main.rs): initialises a fresh `matched = false`, lets
the engine deliver its match events through `on_match`, errors out on a
non-success scan status, and otherwise returns the recorded boolean. -/
def scan_line (engS : List Nat → ScanBehavior) (line : List Nat) :
    Except String Bool :=
  let matched : Bool := false
  let beh := engS (visibleBuffer line)
  let matched := deliver beh.events matched
  if beh.status ≠ HS_SUCCESS then
    Except.error ("hs_scan failed (rc=" ++ toString beh.status ++ ")")
  else
    Except.ok matched

/-- Whether the engine reports at least one match event for a line (the
scan outcome of that line when the scan status is success). -/
def lineMatches (engS : List Nat → ScanBehavior) (line : List Nat) : Bool :=
  !(engS (visibleBuffer line)).events.isEmpty

/-- Result of the scan loop in `main`: the lines printed, the engine calls
made, and whether input was exhausted normally (`completed = true`) as
opposed to aborting on a read error or scan error. -/
structure LoopResult where
  printed : List (List Nat)
  events : List Event
  completed : Bool
deriving DecidableEq, Repr

/-- The `for line in stdin.lock().lines()` loop in `main`: `line?` aborts
on a read error before any scan of that line; `scan_line(..)?` aborts on a
scan error; a matching line is printed. -/
def scanLoop (engS : List Nat → ScanBehavior) : List LineRead → LoopResult
  | [] => ⟨[], [], true⟩
  | LineRead.invalid :: _ => ⟨[], [], false⟩
  | LineRead.ok line :: rest =>
    match scan_line engS line with
    | Except.error _ => ⟨[], [Event.hsScan], false⟩
    | Except.ok m =>
      let r := scanLoop engS rest
      ⟨(if m then [line] else []) ++ r.printed, Event.hsScan :: r.events,
        r.completed⟩

/-- Observable result of one whole run of the program. -/
structure RunResult where
  exitCode : Nat
  stdout : List (List Nat)
  usagePrinted : Bool
  events : List Event
deriving DecidableEq, Repr

/-- `main` (src/main.rs): takes the pattern from `args[1]` (printing usage
to stderr and exiting with status 1 when absent), compiles the pattern,
allocates scratch, runs the scan loop, and frees scratch then database only
when control reaches the end of `main`; every `?` early-return exits with
status 1 without reaching the frees. -/
def main (eng : EngineBeh) (args : List (List Nat)) (input : List LineRead) :
    RunResult :=
  match args.get? 1 with
  | none => ⟨1, [], true, []⟩
  | some pattern =>
    let c := compile_database eng.compileOutcome pattern
    match c.1 with
    | Except.error _ => ⟨1, [], false, c.2⟩
    | Except.ok _ =>
      let a := alloc_scratch eng.allocStatus
      match a.1 with
      | Except.error _ => ⟨1, [], false, c.2 ++ a.2⟩
      | Except.ok _ =>
        let r := scanLoop eng.scanBeh input
        if r.completed then
          ⟨0, r.printed, false,
            c.2 ++ a.2 ++ r.events ++ [Event.hsFreeScratch, Event.hsFreeDatabase]⟩
        else
          ⟨1, r.printed, false, c.2 ++ a.2 ++ r.events⟩

/-- Concrete engine that accepts every pattern, allocates scratch, and
matches exactly the buffers containing the byte 64 (an at-sign). -/
def engGrepAt : EngineBeh where
  compileOutcome := fun _ => CompileOutcome.success
  allocStatus := HS_SUCCESS
  scanBeh := fun buf =>
    ⟨HS_SUCCESS, if buf.contains 64 then [⟨0, 0, 1, 0⟩] else []⟩

/-- Concrete engine whose scratch allocation fails with status 1. -/
def engAllocFail : EngineBeh where
  compileOutcome := fun _ => CompileOutcome.success
  allocStatus := 1
  scanBeh := fun _ => ⟨HS_SUCCESS, []⟩

/-- Concrete compile behaviour that rejects every pattern with the
diagnostic message "bad pattern". -/
def engcRejecting : List Nat → CompileOutcome :=
  fun _ => CompileOutcome.failure (some (some "bad pattern"))

/- ### Helper lemmas -/

/-- Once the callback has recorded a match, delivering further events keeps
the recorded value `true`. -/
theorem deliver_true (evs : List MatchEvent) : deliver evs true = true := by
  induction evs with
  | nil => rfl
  | cons e rest ih => simpa [deliver, on_match] using ih

/-- Starting from the fresh `false`, the delivered value is `true` exactly
when at least one match event exists. -/
theorem deliver_false (evs : List MatchEvent) :
    deliver evs false = !evs.isEmpty := by
  cases evs with
  | nil => rfl
  | cons e rest => simp [deliver, on_match, deliver_true]

/-- Closed form of `scan_line`. -/
theorem scan_line_result (engS : List Nat → ScanBehavior) (line : List Nat) :
    scan_line engS line =
      if (engS (visibleBuffer line)).status = HS_SUCCESS then
        Except.ok (lineMatches engS line)
      else
        Except.error
          ("hs_scan failed (rc=" ++ toString (engS (visibleBuffer line)).status ++ ")") := by
  simp only [scan_line, lineMatches, deliver_false]
  by_cases h : (engS (visibleBuffer line)).status = HS_SUCCESS <;> simp [h]

/-- Truncating to the wrapped length is idempotent. -/
theorem visibleBuffer_idem (line : List Nat) :
    visibleBuffer (visibleBuffer line) = visibleBuffer line := by
  unfold visibleBuffer passedLen
  have h2 : (line.take (line.length % U32_MOD)).length < U32_MOD := by
    rw [List.length_take]
    exact lt_of_le_of_lt (min_le_left _ _)
      (Nat.mod_lt _ (by norm_num [U32_MOD]))
  rw [Nat.mod_eq_of_lt h2, List.take_length]

/-- `compile_database` succeeds exactly when the pattern is NUL-free and
the engine accepts it. -/
theorem compile_database_ok_iff (engc : List Nat → CompileOutcome)
    (pattern : List Nat) :
    (compile_database engc pattern).1 = Except.ok () ↔
      (pattern.contains 0 = false ∧ engc pattern = CompileOutcome.success) := by
  unfold compile_database
  cases hn : pattern.contains 0 with
  | true => simp
  | false =>
    cases hc : engc pattern with
    | success => simp
    | failure err => simp

/-- A successful compilation makes exactly one engine call. -/
theorem compile_database_ok_events (engc : List Nat → CompileOutcome)
    (pattern : List Nat)
    (h : (compile_database engc pattern).1 = Except.ok ()) :
    (compile_database engc pattern).2 = [Event.hsCompile] := by
  rw [compile_database_ok_iff] at h
  have hn : ¬ (0 ∈ pattern) := by simpa using h.1
  unfold compile_database
  simp [hn, h.2]

/-- `alloc_scratch` on the success status. -/
theorem alloc_scratch_ok :
    alloc_scratch HS_SUCCESS = (Except.ok (), [Event.hsAllocScratch]) := by
  simp [alloc_scratch]

/-- `alloc_scratch` on a failure status. -/
theorem alloc_scratch_fail (s : Int) (h : s ≠ HS_SUCCESS) :
    alloc_scratch s =
      (Except.error
          ("Failed: Unable to allocate Hyperscan scratch (rc = " ++
            toString s ++ ")"),
        [Event.hsAllocScratch]) := by
  simp [alloc_scratch, h]

/-- Shape of a run whose compilation and scratch allocation both succeed. -/
theorem main_ok_shape (eng : EngineBeh) (args : List (List Nat))
    (pattern : List Nat) (input : List LineRead)
    (h1 : args.get? 1 = some pattern)
    (hc : (compile_database eng.compileOutcome pattern).1 = Except.ok ())
    (ha : eng.allocStatus = HS_SUCCESS) :
    main eng args input =
      if (scanLoop eng.scanBeh input).completed then
        ⟨0, (scanLoop eng.scanBeh input).printed, false,
          Event.hsCompile :: Event.hsAllocScratch ::
            ((scanLoop eng.scanBeh input).events ++
              [Event.hsFreeScratch, Event.hsFreeDatabase])⟩
      else
        ⟨1, (scanLoop eng.scanBeh input).printed, false,
          Event.hsCompile :: Event.hsAllocScratch ::
            (scanLoop eng.scanBeh input).events⟩ := by
  have hev := compile_database_ok_events eng.compileOutcome pattern hc
  simp only [main, h1, hc, hev, ha, alloc_scratch_ok]
  by_cases hcomp : (scanLoop eng.scanBeh input).completed <;> simp [hcomp]

/-- Shape of a run whose compilation succeeds but scratch allocation
fails: the program exits with status 1 and never frees anything. -/
theorem main_alloc_fail_shape (eng : EngineBeh) (args : List (List Nat))
    (pattern : List Nat) (input : List LineRead)
    (h1 : args.get? 1 = some pattern)
    (hc : (compile_database eng.compileOutcome pattern).1 = Except.ok ())
    (ha : eng.allocStatus ≠ HS_SUCCESS) :
    main eng args input =
      ⟨1, [], false, [Event.hsCompile, Event.hsAllocScratch]⟩ := by
  have hev := compile_database_ok_events eng.compileOutcome pattern hc
  simp only [main, h1, hc, hev, alloc_scratch_fail eng.allocStatus ha]
  rfl

/-- Scan loop over successfully read lines that all scan cleanly. -/
theorem scanLoop_all_ok (engS : List Nat → ScanBehavior)
    (lines : List (List Nat))
    (h : ∀ l ∈ lines, (engS (visibleBuffer l)).status = HS_SUCCESS) :
    scanLoop engS (lines.map LineRead.ok) =
      ⟨lines.filter (fun l => lineMatches engS l),
        List.replicate lines.length Event.hsScan, true⟩ := by
  induction lines with
  | nil => rfl
  | cons l ls ih =>
    have hl := h l (List.mem_cons_self l ls)
    have hrest : ∀ x ∈ ls, (engS (visibleBuffer x)).status = HS_SUCCESS :=
      fun x hx => h x (List.mem_cons_of_mem l hx)
    cases hm : lineMatches engS l with
    | true =>
      simp [scanLoop, scan_line_result, hl, hm, ih hrest, List.filter_cons,
        List.replicate_succ]
    | false =>
      simp [scanLoop, scan_line_result, hl, hm, ih hrest, List.filter_cons,
        List.replicate_succ]

/-- Scan loop over a clean prefix followed by a failed read: the prefix is
processed, the bad line and everything after it are not. -/
theorem scanLoop_prefix_invalid (engS : List Nat → ScanBehavior)
    (pre : List (List Nat)) (rest : List LineRead)
    (h : ∀ l ∈ pre, (engS (visibleBuffer l)).status = HS_SUCCESS) :
    scanLoop engS (pre.map LineRead.ok ++ LineRead.invalid :: rest) =
      ⟨pre.filter (fun l => lineMatches engS l),
        List.replicate pre.length Event.hsScan, false⟩ := by
  induction pre with
  | nil => rfl
  | cons l ls ih =>
    have hl := h l (List.mem_cons_self l ls)
    have hrest : ∀ x ∈ ls, (engS (visibleBuffer x)).status = HS_SUCCESS :=
      fun x hx => h x (List.mem_cons_of_mem l hx)
    cases hm : lineMatches engS l with
    | true =>
      simp [scanLoop, scan_line_result, hl, hm, ih hrest, List.filter_cons,
        List.replicate_succ]
    | false =>
      simp [scanLoop, scan_line_result, hl, hm, ih hrest, List.filter_cons,
        List.replicate_succ]

/-- Every engine call of the scan loop is a scan. -/
theorem scanLoop_events_scan (engS : List Nat → ScanBehavior)
    (input : List LineRead) :
    ∀ e ∈ (scanLoop engS input).events, e = Event.hsScan := by
  induction input with
  | nil => simp [scanLoop]
  | cons x rest ih =>
    cases x with
    | invalid => simp [scanLoop]
    | ok line =>
      cases hs : scan_line engS line with
      | error msg => simp [scanLoop, hs]
      | ok m =>
        intro e he
        simp only [scanLoop, hs] at he
        rcases List.mem_cons.mp he with h | h
        · exact h
        · exact ih e h

/-- An event other than `hsScan` never occurs in the scan loop's trace. -/
theorem scanLoop_count_eq_zero (engS : List Nat → ScanBehavior)
    (input : List LineRead) (e : Event) (he : e ≠ Event.hsScan) :
    (scanLoop engS input).events.count e = 0 := by
  rw [List.count_eq_zero]
  intro hmem
  exact he (scanLoop_events_scan engS input e hmem)

/- ### Claims -/

/-- C1 counterexample: the match callback returns 0 — not a non-zero
value — so, as stated, the claim that it signals the engine to stop
scanning the remainder of the line is false. -/
theorem on_match_returns_zero_cex : (on_match 0 0 0 0 false).2 = 0 := rfl

/-- C1 (amended): when invoked for a match event, the callback records
`matched = true` into the caller-supplied boolean context and returns 0,
so the engine continues scanning the remainder of the line; delivering any
further match events leaves the recorded value `true`, so the per-line
outcome is unaffected. -/
theorem on_match_records_and_continues (i s e fl : Nat) (c : Bool)
    (evs : List MatchEvent) :
    on_match i s e fl c = (true, 0) ∧ deliver evs true = true :=
  ⟨rfl, deliver_true evs⟩

/-- C2 counterexample: with a pattern argument present and compilation
succeeding, a scratch-allocation failure makes the run exit with status 1
after attempting provisioning, yet neither the database nor the scratch
release function is ever invoked — the engine handle is not released
exactly once. -/
theorem main_release_cex :
    (main engAllocFail [[109], [97]] []).exitCode = 1 ∧
      (main engAllocFail [[109], [97]] []).events.count Event.hsAllocScratch = 1 ∧
      (main engAllocFail [[109], [97]] []).events.count Event.hsFreeDatabase = 0 ∧
      (main engAllocFail [[109], [97]] []).events.count Event.hsFreeScratch = 0 := by
  rw [main_alloc_fail_shape engAllocFail [[109], [97]] [97] [] rfl rfl (by decide)]
  decide

/-- C2 (amended): the workspace and then the engine handle are each
released exactly once, but only on the normal-completion exit path; on a
workspace-provisioning failure, and on any abort of the scan loop (scan
error or read error), the process exits without invoking either release
function. -/
theorem main_release_paths (eng : EngineBeh) (args : List (List Nat))
    (pattern : List Nat) (input : List LineRead)
    (h1 : args.get? 1 = some pattern)
    (hc : (compile_database eng.compileOutcome pattern).1 = Except.ok ()) :
    (eng.allocStatus ≠ HS_SUCCESS →
        (main eng args input).events.count Event.hsFreeScratch = 0 ∧
          (main eng args input).events.count Event.hsFreeDatabase = 0) ∧
      (eng.allocStatus = HS_SUCCESS →
        ((scanLoop eng.scanBeh input).completed = false →
            (main eng args input).events.count Event.hsFreeScratch = 0 ∧
              (main eng args input).events.count Event.hsFreeDatabase = 0) ∧
          ((scanLoop eng.scanBeh input).completed = true →
            (main eng args input).events.count Event.hsFreeScratch = 1 ∧
              (main eng args input).events.count Event.hsFreeDatabase = 1 ∧
              ∃ pre, (main eng args input).events =
                pre ++ [Event.hsFreeScratch, Event.hsFreeDatabase])) := by
  constructor
  · intro ha
    rw [main_alloc_fail_shape eng args pattern input h1 hc ha]
    decide
  · intro ha
    rw [main_ok_shape eng args pattern input h1 hc ha]
    have hz1 := scanLoop_count_eq_zero eng.scanBeh input Event.hsFreeScratch (by decide)
    have hz2 := scanLoop_count_eq_zero eng.scanBeh input Event.hsFreeDatabase (by decide)
    constructor
    · intro hcomp
      simp [hcomp, List.count_cons, hz1, hz2]
    · intro hcomp
      refine ⟨?_, ?_,
        ⟨Event.hsCompile :: Event.hsAllocScratch :: (scanLoop eng.scanBeh input).events, ?_⟩⟩
      · simp [hcomp, List.count_cons, List.count_append, hz1]
      · simp [hcomp, List.count_cons, List.count_append, hz2]
      · simp [hcomp]

/-- C2 witness: a concrete run that completes normally releases scratch
and database exactly once each. -/
theorem main_release_paths_witness :
    (main engGrepAt [[109], [97]] []).events.count Event.hsFreeScratch = 1 ∧
      (main engGrepAt [[109], [97]] []).events.count Event.hsFreeDatabase = 1 := by
  have h := (main_release_paths engGrepAt [[109], [97]] [97] [] rfl rfl).2 rfl
  exact ⟨(h.2 rfl).1, (h.2 rfl).2.1⟩

/-- C3: when the engine accepts the pattern, scratch allocation succeeds,
and every line reads and scans cleanly, the printed lines are exactly the
subsequence of the input lines whose scan outcome is matched, in input
order, and the run exits successfully; the empty input stream is the
instance with `lines = []`, giving zero output lines and exit status 0. -/
theorem main_filters_in_order (eng : EngineBeh) (args : List (List Nat))
    (pattern : List Nat) (lines : List (List Nat))
    (h1 : args.get? 1 = some pattern)
    (hc : (compile_database eng.compileOutcome pattern).1 = Except.ok ())
    (ha : eng.allocStatus = HS_SUCCESS)
    (hs : ∀ l ∈ lines, (eng.scanBeh (visibleBuffer l)).status = HS_SUCCESS) :
    (main eng args (lines.map LineRead.ok)).stdout =
        lines.filter (fun l => lineMatches eng.scanBeh l) ∧
      (main eng args (lines.map LineRead.ok)).exitCode = 0 := by
  rw [main_ok_shape eng args pattern _ h1 hc ha,
    scanLoop_all_ok eng.scanBeh lines hs]
  simp

/-- C3 witness: a two-line run prints exactly its matching line, and the
empty-input run prints nothing and exits 0. -/
theorem main_filters_in_order_witness :
    (main engGrepAt [[109], [64]]
        ([[97, 64, 98], [110, 111]].map LineRead.ok)).stdout = [[97, 64, 98]] ∧
      (main engGrepAt [[109], [64]] ([].map LineRead.ok)).stdout = [] ∧
      (main engGrepAt [[109], [64]] ([].map LineRead.ok)).exitCode = 0 := by
  refine ⟨?_, ?_, ?_⟩
  · rw [(main_filters_in_order engGrepAt [[109], [64]] [64]
      [[97, 64, 98], [110, 111]] rfl rfl rfl (by decide)).1]
    decide
  · exact (main_filters_in_order engGrepAt [[109], [64]] [64] [] rfl rfl rfl
      (by decide)).1
  · exact (main_filters_in_order engGrepAt [[109], [64]] [64] [] rfl rfl rfl
      (by decide)).2

/-- C4: `scan_line` starts from a fresh `matched = false` on every call, so
on a success status its result is exactly whether the reporter was invoked
at least once during this call — `Ok(true)` on a recorded match, `Ok(false)`
otherwise — and a non-success status yields an error instead. -/
theorem scan_line_spec (engS : List Nat → ScanBehavior) (line : List Nat) :
    scan_line engS line =
      if (engS (visibleBuffer line)).status = HS_SUCCESS then
        Except.ok (!(engS (visibleBuffer line)).events.isEmpty)
      else
        Except.error
          ("hs_scan failed (rc=" ++ toString (engS (visibleBuffer line)).status ++ ")") :=
  scan_line_result engS line

/-- C5: a pattern containing an embedded NUL byte is rejected with the
interior-NUL error before any engine interaction: the engine-call trace of
`compile_database` is empty. -/
theorem compile_database_interior_nul (engc : List Nat → CompileOutcome)
    (pattern : List Nat) (h : pattern.contains 0 = true) :
    compile_database engc pattern =
      (Except.error "pattern contains interior NUL", []) := by
  have h2 : 0 ∈ pattern := by simpa using h
  simp [compile_database, h2]

/-- C5 witness: the concrete pattern 0x61 0x00 0x62 is rejected with no
engine call. -/
theorem compile_database_interior_nul_witness :
    compile_database engcRejecting [97, 0, 98] =
      (Except.error "pattern contains interior NUL", []) :=
  compile_database_interior_nul engcRejecting [97, 0, 98] (by decide)

/-- C6: when the engine rejects a NUL-free pattern, `compile_database`
propagates a compile error carrying the engine's diagnostic message when
one exists and the generic fallback otherwise, after calling the engine
once and freeing the engine's error structure exactly once. -/
theorem compile_database_engine_failure (engc : List Nat → CompileOutcome)
    (pattern : List Nat) (err : Option (Option String))
    (hnul : pattern.contains 0 = false)
    (hfail : engc pattern = CompileOutcome.failure err) :
    (∀ m, err = some (some m) →
        compile_database engc pattern =
          (Except.error ("Hyperscan compile error: " ++ m),
            [Event.hsCompile, Event.hsFreeCompileError])) ∧
      (err = none ∨ err = some none →
        compile_database engc pattern =
          (Except.error ("Hyperscan compile error: " ++ "Unknown compile error"),
            [Event.hsCompile, Event.hsFreeCompileError])) := by
  have hn : ¬ (0 ∈ pattern) := by simpa using hnul
  constructor
  · intro m hm
    subst hm
    simp [compile_database, hn, hfail]
  · intro hm
    rcases hm with hm | hm <;> subst hm <;> simp [compile_database, hn, hfail]

/-- C6 witness: a rejecting engine's message "bad pattern" is extracted,
the error structure freed, and the compile error propagated. -/
theorem compile_database_engine_failure_witness :
    compile_database engcRejecting [91] =
      (Except.error ("Hyperscan compile error: " ++ "bad pattern"),
        [Event.hsCompile, Event.hsFreeCompileError]) :=
  (compile_database_engine_failure engcRejecting [91] (some (some "bad pattern"))
      (by decide) rfl).1 "bad pattern" rfl

/-- C7: when the engine accepts the pattern, scratch allocation succeeds,
and every line reads and scans cleanly, every matching input line is
written to stdout verbatim — the very same byte sequence appears among the
printed lines — the printed lines occur one per output line in input order
(a sublist of the input lines), and nothing but matching lines is
printed. -/
theorem main_output_verbatim_in_order (eng : EngineBeh)
    (args : List (List Nat)) (pattern : List Nat) (lines : List (List Nat))
    (h1 : args.get? 1 = some pattern)
    (hc : (compile_database eng.compileOutcome pattern).1 = Except.ok ())
    (ha : eng.allocStatus = HS_SUCCESS)
    (hs : ∀ l ∈ lines, (eng.scanBeh (visibleBuffer l)).status = HS_SUCCESS) :
    (∀ l ∈ lines, lineMatches eng.scanBeh l = true →
        l ∈ (main eng args (lines.map LineRead.ok)).stdout) ∧
      ((main eng args (lines.map LineRead.ok)).stdout).Sublist lines ∧
      ∀ l ∈ (main eng args (lines.map LineRead.ok)).stdout,
        lineMatches eng.scanBeh l = true := by
  have hstd : (main eng args (lines.map LineRead.ok)).stdout =
      lines.filter (fun l => lineMatches eng.scanBeh l) := by
    rw [main_ok_shape eng args pattern _ h1 hc ha,
      scanLoop_all_ok eng.scanBeh lines hs]
    simp
  refine ⟨?_, ?_, ?_⟩
  · intro l hl hm
    rw [hstd]
    exact List.mem_filter.mpr ⟨hl, by simpa using hm⟩
  · rw [hstd]
    exact List.filter_sublist lines
  · intro l hl
    rw [hstd] at hl
    simpa using (List.mem_filter.mp hl).2

/-- C7 witness: both matching lines of a three-line input appear in the
output, which is an in-order sublist of the input lines. -/
theorem main_output_verbatim_in_order_witness :
    [99, 64, 99] ∈ (main engGrepAt [[109], [64]]
        ([[97, 64, 98], [110, 111], [99, 64, 99]].map LineRead.ok)).stdout ∧
      [97, 64, 98] ∈ (main engGrepAt [[109], [64]]
        ([[97, 64, 98], [110, 111], [99, 64, 99]].map LineRead.ok)).stdout ∧
      ((main engGrepAt [[109], [64]]
        ([[97, 64, 98], [110, 111], [99, 64, 99]].map LineRead.ok)).stdout).Sublist
        [[97, 64, 98], [110, 111], [99, 64, 99]] := by
  have h := main_output_verbatim_in_order engGrepAt [[109], [64]] [64]
    [[97, 64, 98], [110, 111], [99, 64, 99]] rfl rfl rfl (by decide)
  exact ⟨h.1 [99, 64, 99] (by decide) (by decide),
    h.1 [97, 64, 98] (by decide) (by decide), h.2.1⟩

/-- C8: with no pattern argument, the program prints the usage message to
the error stream and exits with status 1 having produced no output and
made no engine call (no compilation, no allocation). -/
theorem main_missing_pattern (eng : EngineBeh) (args : List (List Nat))
    (input : List LineRead) (h : args.get? 1 = none) :
    main eng args input = ⟨1, [], true, []⟩ := by
  simp only [main, h]

/-- C8 witness: a run with only the program name in `args`. -/
theorem main_missing_pattern_witness :
    main engGrepAt [[109]] [LineRead.ok [97]] = ⟨1, [], true, []⟩ :=
  main_missing_pattern engGrepAt [[109]] [LineRead.ok [97]] rfl

/-- C9: the byte length handed to `hs_scan` is the line length reduced
modulo 2^32 (the `as u32` cast), and the scan result is fully determined
by the wrapped-length prefix of the line that this length exposes to the
engine. -/
theorem scan_line_length_wraps (engS : List Nat → ScanBehavior)
    (line : List Nat) :
    passedLen line = line.length % U32_MOD ∧
      scan_line engS line = scan_line engS (visibleBuffer line) := by
  refine ⟨rfl, ?_⟩
  rw [scan_line_result, scan_line_result]
  unfold lineMatches
  rw [visibleBuffer_idem]

/-- C10: when a line fails to read (for example, it is not valid UTF-8),
the run aborts with exit status 1 at that point: exactly the lines before
it are scanned, only their matches are printed, and neither the bad line
nor anything after it is ever scanned or printed. -/
theorem main_invalid_utf8_aborts (eng : EngineBeh) (args : List (List Nat))
    (pattern : List Nat) (pre : List (List Nat)) (rest : List LineRead)
    (h1 : args.get? 1 = some pattern)
    (hc : (compile_database eng.compileOutcome pattern).1 = Except.ok ())
    (ha : eng.allocStatus = HS_SUCCESS)
    (hs : ∀ l ∈ pre, (eng.scanBeh (visibleBuffer l)).status = HS_SUCCESS) :
    (main eng args (pre.map LineRead.ok ++ LineRead.invalid :: rest)).exitCode = 1 ∧
      (main eng args (pre.map LineRead.ok ++ LineRead.invalid :: rest)).events.count
          Event.hsScan = pre.length ∧
      (main eng args (pre.map LineRead.ok ++ LineRead.invalid :: rest)).stdout =
        pre.filter (fun l => lineMatches eng.scanBeh l) := by
  rw [main_ok_shape eng args pattern _ h1 hc ha,
    scanLoop_prefix_invalid eng.scanBeh pre rest hs]
  simp [List.count_cons, List.count_replicate]

/-- C10 witness: a matching line, then a bad read, then another matching
line: only the first line is scanned and printed and the run exits 1. -/
theorem main_invalid_utf8_aborts_witness :
    (main engGrepAt [[109], [64]]
        ([[97, 64, 98]].map LineRead.ok ++
          LineRead.invalid :: [LineRead.ok [99, 64, 99]])).exitCode = 1 ∧
      (main engGrepAt [[109], [64]]
        ([[97, 64, 98]].map LineRead.ok ++
          LineRead.invalid :: [LineRead.ok [99, 64, 99]])).events.count
            Event.hsScan = 1 ∧
      (main engGrepAt [[109], [64]]
        ([[97, 64, 98]].map LineRead.ok ++
          LineRead.invalid :: [LineRead.ok [99, 64, 99]])).stdout = [[97, 64, 98]] := by
  have h := main_invalid_utf8_aborts engGrepAt [[109], [64]] [64] [[97, 64, 98]]
    [LineRead.ok [99, 64, 99]] rfl rfl rfl (by decide)
  refine ⟨h.1, h.2.1, ?_⟩
  rw [h.2.2]
  decide

end Minigrep
